import Mathlib

/-
Verification development for the Outline video effect
(src/effects/Outline.cpp, src/effects/Outline.h of libopenshot).

The effect's per-frame pixel pipeline (Outline::GetFrame) is embedded
shallowly: images are grids of 4-channel 8-bit pixels represented as
functions from coordinates to channel values, single-channel masks are
functions to natural numbers, and each OpenCV / Qt primitive invoked by
the source is translated according to its documented semantics.  The two
numeric kernels whose exact pixel output depends on floating-point
convolution (the body of cv::GaussianBlur and cv::Canny) are abstracted
as function parameters; every argument-validation step that OpenCV
performs before running those kernels is modelled concretely, because
the control flow of GetFrame depends on it.
-/

/-- One 4-channel pixel of a CV_8UC4 BGRA matrix, as wrapped by
Outline::QImageToBGRACvMat.  Channel 0 is blue, 1 green, 2 red, 3 alpha. -/
structure Pixel where
  b : ℕ
  g : ℕ
  r : ℕ
  a : ℕ
deriving DecidableEq

/-- A 4-channel image buffer: dimensions plus the pixel grid (row, column). -/
structure Image where
  width : ℕ
  height : ℕ
  pix : ℕ → ℕ → Pixel

/-- A single-channel 8-bit mask (row, column), dimensions equal to the
source image throughout the pipeline. -/
abbrev Mask := ℕ → ℕ → ℕ

/-- A 4-channel pixel grid without stored dimensions (an OpenCV scratch Mat). -/
abbrev Canvas := ℕ → ℕ → Pixel

/-- The C++ double-to-int conversion applied on lines 53-57 of Outline.cpp:
the fractional part is discarded, i.e. the quotient of the numerator by the
denominator in T-division (truncation toward zero). -/
def cppToInt (q : ℚ) : ℤ := q.num.tdiv q.den

/-- The cv::saturate_cast to an 8-bit unsigned channel used when a Scalar
fills a CV_8UC4 matrix: clamp to the range 0..255. -/
def saturateUChar (z : ℤ) : ℕ := (min 255 (max 0 z)).toNat

/-- The exact division by 255 performed by Qt's qPremultiply on one colour
channel v = c * a: (v + (v >> 8) + 0x80) >> 8. -/
def qtDiv255 (v : ℕ) : ℕ := (v + v / 256 + 128) / 256

/-- Qt conversion of one pixel to the premultiplied format, as performed by
QImage::convertToFormat(Format_RGBA8888_Premultiplied) inside
Outline::BGRACvMatToQImage: every colour channel is multiplied by
alpha / 255 (with Qt rounding), alpha is kept. -/
def qtPremultiply (p : Pixel) : Pixel :=
  ⟨qtDiv255 (p.b * p.a), qtDiv255 (p.g * p.a), qtDiv255 (p.r * p.a), p.a⟩

/-- Extraction of the alpha channel into an independent mask:
cv::split followed by channels[3].clone() (lines 63-65). -/
def alphaMask (img : Image) : Mask := fun y x => (img.pix y x).a

/-- The cv::threshold operation with type THRESH_BINARY: a pixel strictly
above the threshold becomes maxval, every other pixel becomes 0 (line 74). -/
def thresholdBinary (thresh maxval : ℕ) (m : Mask) : Mask :=
  fun y x => if thresh < m y x then maxval else 0

/-- The cv::bitwise_or of two 8-bit masks (line 87). -/
def bitwiseOr (m1 m2 : Mask) : Mask := fun y x => (m1 y x) ||| (m2 y x)

/-- Masked cv::Mat::copyTo: the destination pixel is replaced by the source
pixel exactly where the mask is nonzero, and left unchanged elsewhere. -/
def maskedCopy (src : Canvas) (dst : Canvas) (m : Mask) : Canvas :=
  fun y x => if m y x ≠ 0 then src y x else dst y x

/-- The zero-initialized destination produced when a masked copyTo has to
allocate its destination matrix (final_image starts out empty on line 89). -/
def zeroCanvas : Canvas := fun _ _ => ⟨0, 0, 0, 0⟩

/-- The solid colour matrix of line 92: every pixel holds
Scalar(blueValue, greenValue, redValue, alphaValue), each channel passed
through cv::saturate_cast to 8 bits. -/
def solidColorMat (bI gI rI aI : ℤ) : Canvas :=
  fun _ _ => ⟨saturateUChar bI, saturateUChar gI, saturateUChar rI, saturateUChar aI⟩

/-- The first compositing step (line 95): the solid colour matrix is copied
through the combined outline mask onto the freshly allocated, zeroed
final_image. -/
def fillLayer (bI gI rI aI : ℤ) (combined : Mask) : Canvas :=
  maskedCopy (solidColorMat bI gI rI aI) zeroCanvas combined

/-- The full compositing tail of GetFrame (lines 89-102): fill layer through
the combined mask, original image on top through the unblurred alpha mask,
then the Qt premultiplied-format conversion of BGRACvMatToQImage. -/
def compositeImage (img : Image) (bI gI rI aI : ℤ) (combined : Mask) : Image :=
  { width := img.width
    height := img.height
    pix := fun y x =>
      qtPremultiply
        (maskedCopy img.pix (fillLayer bI gI rI aI combined) (alphaMask img) y x) }

/-- Errors raised by OpenCV argument validation inside the pipeline. -/
inductive CvErr where
  /-- CV_Assert(!_src.empty()) at the top of cv::GaussianBlur. -/
  | emptySrc
  /-- CV_Assert(ksize > 0 and odd) in createGaussianKernels, reached when the
  kernel size is passed as 0 and sigma is not positive. -/
  | badKernelSize
deriving DecidableEq

/-- Automatic kernel-size derivation of cv::GaussianBlur for 8-bit input when
ksize is 0 and sigma is positive: cvRound(sigma * 3 * 2 + 1) | 1. -/
def ksizeFromSigma (sigma : ℚ) : ℕ := (round (sigma * 3 * 2 + 1)).toNat ||| 1

/-- Dispatch logic of cv::GaussianBlur as invoked on lines 73 and 83 with
ksize = Size(0, 0) and BORDER_DEFAULT: reject an empty source; force a
kernel extent of 1 along any singleton dimension; copy the source when both
kernel extents are 1; derive the kernel size from sigma when sigma is
positive; reject a remaining zero kernel size; otherwise run the Gaussian
convolution, abstracted here as blurCore. -/
def gaussianBlurChecked (blurCore : ℚ → Mask → Mask) (w h : ℕ) (sigma : ℚ)
    (m : Mask) : Except CvErr Mask :=
  if w = 0 ∨ h = 0 then .error .emptySrc
  else
    let ksw : ℕ := if w = 1 then 1 else 0
    let ksh : ℕ := if h = 1 then 1 else 0
    if ksw = 1 ∧ ksh = 1 then .ok m
    else
      let ksw := if ksw = 0 ∧ 0 < sigma then ksizeFromSigma sigma else ksw
      let ksh := if ksh = 0 ∧ 0 < sigma then ksizeFromSigma sigma else ksh
      if ksw = 0 ∨ ksh = 0 then .error .badKernelSize
      else .ok (blurCore sigma m)

/-- The pixel pipeline of Outline::GetFrame (lines 60-102) on the already
resolved integer parameters: extract the alpha mask, Gaussian-blur it with
the width-derived sigma, binarize at threshold 0, run the edge detector
(cv::Canny with thresholds 250 and 255, abstracted as edgeCore), blur the
edge map with fixed sigma 0.8, OR the two masks, then composite.  Either
checked blur can raise an OpenCV error, which propagates out of GetFrame. -/
def runPipeline (blurCore : ℚ → Mask → Mask) (edgeCore : Mask → Mask)
    (img : Image) (sigmaValue redValue greenValue blueValue alphaValue : ℤ) :
    Except CvErr Image :=
  match gaussianBlurChecked blurCore img.width img.height ((sigmaValue : ℚ))
      (alphaMask img) with
  | .error e => .error e
  | .ok blurred =>
    match gaussianBlurChecked blurCore img.width img.height ((4 : ℚ) / 5)
        (edgeCore (thresholdBinary 0 255 blurred)) with
    | .error e => .error e
    | .ok blurred_edge_mask =>
        .ok (compositeImage img blueValue greenValue redValue alphaValue
          (bitwiseOr (thresholdBinary 0 255 blurred) blurred_edge_mask))

/-- Modelled from the spec: the openshot::Keyframe parameter curve
(KeyFrame.cpp is not part of the sources here).  The spec abstracts it as an
opaque, pure time-indexed function from a frame index to a scalar. -/
structure Keyframe where
  curve : ℤ → ℚ

/-- Resolution of a parameter curve at a frame index
(Keyframe::GetValue, returning a double). -/
def Keyframe.GetValue (k : Keyframe) (t : ℤ) : ℚ := k.curve t

/-- A constant parameter curve, as produced by the Keyframe(double)
constructor used on line 19. -/
def Keyframe.const (v : ℚ) : Keyframe := ⟨fun _ => v⟩

/-- Modelled from the spec: the JSON-like structured document of the
serialization interface (jsoncpp is external).  An object is a list of
string-keyed fields; a keyframe-curve document is opaque to this core and
delegated to the external curve component, so it is represented by the
curve it denotes. -/
inductive JsonVal where
  | null
  | str (s : String)
  | obj (fields : List (String × JsonVal))
  | curveDoc (k : Keyframe)

/-- Lookup of a key in an object field list; a missing key reads as the
null value, as with the const Json::Value::operator[]. -/
def objGet (fs : List (String × JsonVal)) (key : String) : JsonVal :=
  match fs with
  | [] => .null
  | (k, w) :: rest => if k = key then w else objGet rest key

/-- Update of a key in an object field list (Json::Value::operator[]
assignment): replace the first binding of the key, or append it. -/
def objSet (fs : List (String × JsonVal)) (key : String) (v : JsonVal) :
    List (String × JsonVal) :=
  match fs with
  | [] => [(key, v)]
  | (k, w) :: rest =>
      if k = key then (k, v) :: rest else (k, w) :: objSet rest key v

/-- Lookup on a JsonVal: object lookup on objects, null otherwise. -/
def JsonVal.get (j : JsonVal) (key : String) : JsonVal :=
  match j with
  | .obj fs => objGet fs key
  | _ => .null

/-- Test used by the guards of Outline::SetJsonValue
(Json::Value::isNull). -/
def JsonVal.isNull : JsonVal → Bool
  | .null => true
  | _ => false

/-- Modelled from the spec: Keyframe::JsonValue emits the opaque
keyframe-curve document for the curve. -/
def Keyframe.JsonValue (k : Keyframe) : JsonVal := .curveDoc k

/-- Modelled from the spec: Keyframe::SetJsonValue loads an opaque
keyframe-curve document, replacing the curve; a document that is not a
curve document is outside the specified interface and leaves the curve
unchanged. -/
def Keyframe.SetJsonValue (k : Keyframe) (j : JsonVal) : Keyframe :=
  match j with
  | .curveDoc k2 => k2
  | _ => k

/-- The Outline effect instance: the five parameter curves of Outline.h
plus the inherited EffectBase state, which the spec treats as external and
which is modelled as the field list its serializer emits. -/
structure Outline where
  width : Keyframe
  red : Keyframe
  green : Keyframe
  blue : Keyframe
  alpha : Keyframe
  base : List (String × JsonVal)

/-- The blank constructor Outline() of line 19:
width(3.0), red(0.0), green(0.0), blue(0.0), alpha(255.0). -/
def Outline.blank : Outline :=
  { width := .const 3
    red := .const 0
    green := .const 0
    blue := .const 0
    alpha := .const 255
    base := [] }

/-- Line 53: int sigmaValue = width.GetValue(frame_number) / 3. -/
def Outline.sigmaValue (o : Outline) (t : ℤ) : ℤ := cppToInt (o.width.GetValue t / 3)

/-- Line 54: int redValue = red.GetValue(frame_number). -/
def Outline.redValue (o : Outline) (t : ℤ) : ℤ := cppToInt (o.red.GetValue t)

/-- Line 55: int greenValue = green.GetValue(frame_number). -/
def Outline.greenValue (o : Outline) (t : ℤ) : ℤ := cppToInt (o.green.GetValue t)

/-- Line 56: int blueValue = blue.GetValue(frame_number). -/
def Outline.blueValue (o : Outline) (t : ℤ) : ℤ := cppToInt (o.blue.GetValue t)

/-- Line 57: int alphaValue = alpha.GetValue(frame_number). -/
def Outline.alphaValue (o : Outline) (t : ℤ) : ℤ := cppToInt (o.alpha.GetValue t)

/-- Outline::GetFrame on the image carried by the frame: resolve the five
parameters at the frame number (lines 53-57) and run the pixel pipeline. -/
def Outline.getFrame (blurCore : ℚ → Mask → Mask) (edgeCore : Mask → Mask)
    (o : Outline) (img : Image) (t : ℤ) : Except CvErr Image :=
  runPipeline blurCore edgeCore img (o.sigmaValue t) (o.redValue t)
    (o.greenValue t) (o.blueValue t) (o.alphaValue t)

/-- Outline::JsonValue (lines 127-140): start from the parent's document,
then set type and the five curve documents. -/
def Outline.JsonValue (o : Outline) : JsonVal :=
  .obj (objSet (objSet (objSet (objSet (objSet (objSet o.base
    "type" (.str "Outline"))
    "width" o.width.JsonValue)
    "red" o.red.JsonValue)
    "green" o.green.JsonValue)
    "blue" o.blue.JsonValue)
    "alpha" o.alpha.JsonValue)

/-- Outline::SetJsonValue (lines 160-176), with the external
EffectBase::SetJsonValue supplied as baseSet: update the parent state, then
load each of the five curves whose key is present (not null). -/
def Outline.SetJsonValue
    (baseSet : List (String × JsonVal) → JsonVal → List (String × JsonVal))
    (o : Outline) (root : JsonVal) : Outline :=
  { base := baseSet o.base root
    width := if (root.get "width").isNull then o.width
             else o.width.SetJsonValue (root.get "width")
    red := if (root.get "red").isNull then o.red
           else o.red.SetJsonValue (root.get "red")
    green := if (root.get "green").isNull then o.green
             else o.green.SetJsonValue (root.get "green")
    blue := if (root.get "blue").isNull then o.blue
            else o.blue.SetJsonValue (root.get "blue")
    alpha := if (root.get "alpha").isNull then o.alpha
             else o.alpha.SetJsonValue (root.get "alpha") }

/-- The structured error thrown by Outline::SetJson when the document cannot
be loaded (openshot::InvalidJSON). -/
inductive OutlineErr where
  | invalidJSON (msg : String)
deriving DecidableEq

/-- Outline::SetJson (lines 143-157), with the external openshot
stringToJson parser supplied as parse: on a parse failure the catch block
throws InvalidJSON and the instance is left exactly as it was; on success
the parsed root is loaded with SetJsonValue.  The result pairs the instance
state after the call with the error signalled, if any. -/
def Outline.SetJson (parse : String → Except String JsonVal)
    (baseSet : List (String × JsonVal) → JsonVal → List (String × JsonVal))
    (o : Outline) (s : String) : Outline × Option OutlineErr :=
  match parse s with
  | .ok root => (o.SetJsonValue baseSet root, none)
  | .error _ =>
      (o, some (.invalidJSON "JSON is invalid (missing keys or invalid data types)"))

/-- Identity convolution core used to instantiate the abstract Gaussian
kernel in concrete evaluations. -/
def wBlur : ℚ → Mask → Mask := fun _ m => m

/-- Edge-detector core returning an all-zero edge map, used to instantiate
the abstract Canny kernel in concrete evaluations. -/
def wEdge : Mask → Mask := fun _ => fun _ _ => 0

/-- A w-by-h image whose pixels all hold p. -/
def constImage (w h : ℕ) (p : Pixel) : Image := ⟨w, h, fun _ _ => p⟩

/-- A 2-by-2 fully opaque test image. -/
def imgOpaque : Image := constImage 2 2 ⟨10, 20, 30, 255⟩

/-- A 2-by-2 test image with 50 percent alpha everywhere. -/
def imgHalf : Image := constImage 2 2 ⟨100, 100, 100, 128⟩

/-- A zero-area test image. -/
def imgEmpty : Image := constImage 0 0 ⟨0, 0, 0, 0⟩

/-- An Outline instance whose five curves are constant. -/
def outlineConst (wv rv gv bv av : ℚ) : Outline :=
  { width := .const wv
    red := .const rv
    green := .const gv
    blue := .const bv
    alpha := .const av
    base := [] }

/-- The combined compositing mask of a concrete run on imgOpaque with the
identity blur core and the zero edge core. -/
def wCombinedOpaque : Mask :=
  bitwiseOr (thresholdBinary 0 255 (alphaMask imgOpaque)) (fun _ _ => 0)

/-- The output image of that concrete run for fill colour (9, 9, 9, 255). -/
def wOutC1 : Image := compositeImage imgOpaque 9 9 9 255 wCombinedOpaque

/-- The combined compositing mask of a concrete run on imgHalf with the
identity blur core and the zero edge core. -/
def wCombinedHalf : Mask :=
  bitwiseOr (thresholdBinary 0 255 (alphaMask imgHalf)) (fun _ _ => 0)

/-- The output image of that concrete run for fill colour (9, 9, 9, 255). -/
def wOutCex : Image := compositeImage imgHalf 9 9 9 255 wCombinedHalf

/-- A parser that fails on every input, standing in for openshot
stringToJson applied to an unparsable document. -/
def parseFail : String → Except String JsonVal := fun _ => .error "parse failure"

/-- A parent-state updater that keeps the base state unchanged, used to
instantiate the external EffectBase::SetJsonValue in concrete runs. -/
def baseKeep : List (String × JsonVal) → JsonVal → List (String × JsonVal) :=
  fun b _ => b

/-- A concrete curve used in serialization tests. -/
def wCurve7 : Keyframe := Keyframe.const 7

/-- A document carrying only a width curve, with the other four keys absent. -/
def wDoc8 : List (String × JsonVal) := [("width", .curveDoc wCurve7)]

/-- An all-ones mask. -/
def wMaskOne : Mask := fun _ _ => 1

/-- An all-255 mask. -/
def wMask255 : Mask := fun _ _ => 255

/-- An all-sevens mask. -/
def wMask7 : Mask := fun _ _ => 7

/-- An all-zero mask. -/
def wMaskZero : Mask := fun _ _ => 0

theorem cppToInt_of_nonneg (q : ℚ) (h : 0 ≤ q) : cppToInt q = ⌊q⌋ := by
  unfold cppToInt
  rw [Int.tdiv_eq_ediv (Rat.num_nonneg.mpr h) (Int.natCast_nonneg _), Rat.floor_def]

theorem cppToInt_of_neg (q : ℚ) (h : q < 0) : cppToInt q = ⌈q⌉ := by
  have h2 : 0 ≤ -q := by linarith
  have h3 : cppToInt (-q) = ⌊-q⌋ := cppToInt_of_nonneg (-q) h2
  unfold cppToInt at h3 ⊢
  rw [Rat.neg_num, Rat.neg_den, Int.neg_tdiv] at h3
  have h4 : q.num.tdiv q.den = -⌊-q⌋ := by omega
  rw [h4, ← Int.ceil_neg, neg_neg]

set_option maxRecDepth 8192 in
theorem qtDiv255_mul255 : ∀ c : ℕ, c < 256 → qtDiv255 (c * 255) = c := by decide

theorem qtPremultiply_opaque (p : Pixel) (ha : p.a = 255) (hb : p.b < 256)
    (hg : p.g < 256) (hr : p.r < 256) : qtPremultiply p = p := by
  obtain ⟨pb, pg, pr, pa⟩ := p
  simp only at ha hb hg hr
  subst ha
  simp only [qtPremultiply, Pixel.mk.injEq]
  exact ⟨qtDiv255_mul255 pb hb, qtDiv255_mul255 pg hg, qtDiv255_mul255 pr hr, trivial⟩

theorem ksizeFromSigma_ne_zero (sigma : ℚ) : ksizeFromSigma sigma ≠ 0 := by
  unfold ksizeFromSigma
  intro h
  have h1 := congrArg (fun n => Nat.testBit n 0) h
  simp at h1

theorem gaussianBlurChecked_empty (blurCore : ℚ → Mask → Mask) (w h : ℕ)
    (sigma : ℚ) (m : Mask) (hwh : w = 0 ∨ h = 0) :
    gaussianBlurChecked blurCore w h sigma m = .error .emptySrc := by
  simp [gaussianBlurChecked, hwh]

theorem gaussianBlurChecked_nonpos (blurCore : ℚ → Mask → Mask) (w h : ℕ)
    (sigma : ℚ) (m : Mask) (hw0 : w ≠ 0) (hh0 : h ≠ 0) (hw1 : w ≠ 1) (hh1 : h ≠ 1)
    (hs : ¬ 0 < sigma) :
    gaussianBlurChecked blurCore w h sigma m = .error .badKernelSize := by
  simp [gaussianBlurChecked, hw0, hh0, hw1, hh1, hs]

theorem gaussianBlurChecked_pos (blurCore : ℚ → Mask → Mask) (w h : ℕ)
    (sigma : ℚ) (m : Mask) (hw0 : w ≠ 0) (hh0 : h ≠ 0) (hw1 : w ≠ 1) (hh1 : h ≠ 1)
    (hs : 0 < sigma) :
    gaussianBlurChecked blurCore w h sigma m = .ok (blurCore sigma m) := by
  simp [gaussianBlurChecked, hw0, hh0, hw1, hh1, hs, ksizeFromSigma_ne_zero]

theorem runPipeline_ok (blurCore : ℚ → Mask → Mask) (edgeCore : Mask → Mask)
    (img : Image) (sI rI gI bI aI : ℤ) (out : Image)
    (h : runPipeline blurCore edgeCore img sI rI gI bI aI = .ok out) :
    ∃ cm : Mask, out = compositeImage img bI gI rI aI cm := by
  unfold runPipeline at h
  split at h
  · exact absurd h (by simp)
  · split at h
    · exact absurd h (by simp)
    · exact ⟨_, (Except.ok.inj h).symm⟩

theorem runPipeline_eq_of (blurCore : ℚ → Mask → Mask) (edgeCore : Mask → Mask)
    (img : Image) (sI rI gI bI aI : ℤ) (b1 b2 : Mask)
    (h1 : gaussianBlurChecked blurCore img.width img.height ((sI : ℚ))
      (alphaMask img) = .ok b1)
    (h2 : gaussianBlurChecked blurCore img.width img.height ((4 : ℚ) / 5)
      (edgeCore (thresholdBinary 0 255 b1)) = .ok b2) :
    runPipeline blurCore edgeCore img sI rI gI bI aI =
      .ok (compositeImage img bI gI rI aI (bitwiseOr (thresholdBinary 0 255 b1) b2)) := by
  unfold runPipeline
  simp only [h1, h2]

theorem objGet_objSet_self (fs : List (String × JsonVal)) (key : String)
    (v : JsonVal) : objGet (objSet fs key v) key = v := by
  induction fs with
  | nil => simp [objSet, objGet]
  | cons kv rest ih =>
      obtain ⟨k, w⟩ := kv
      by_cases hk : k = key
      · simp [objSet, objGet, hk]
      · simp [objSet, objGet, hk, ih]

theorem objGet_objSet_other (fs : List (String × JsonVal)) (key key2 : String)
    (v : JsonVal) (hne : key ≠ key2) :
    objGet (objSet fs key v) key2 = objGet fs key2 := by
  induction fs with
  | nil => simp [objSet, objGet, hne]
  | cons kv rest ih =>
      obtain ⟨k, w⟩ := kv
      by_cases hk : k = key
      · subst hk
        simp [objSet, objGet, hne]
      · by_cases hk2 : k = key2
        · subst hk2
          simp [objSet, objGet, hk, Ne.symm hne]
        · simp [objSet, objGet, hk, hk2, ih]

theorem jsonValue_get_width (o : Outline) :
    (Outline.JsonValue o).get "width" = .curveDoc o.width := by
  simp only [Outline.JsonValue, JsonVal.get, Keyframe.JsonValue]
  rw [objGet_objSet_other _ _ _ _ (by decide), objGet_objSet_other _ _ _ _ (by decide),
    objGet_objSet_other _ _ _ _ (by decide), objGet_objSet_other _ _ _ _ (by decide),
    objGet_objSet_self]

theorem jsonValue_get_red (o : Outline) :
    (Outline.JsonValue o).get "red" = .curveDoc o.red := by
  simp only [Outline.JsonValue, JsonVal.get, Keyframe.JsonValue]
  rw [objGet_objSet_other _ _ _ _ (by decide), objGet_objSet_other _ _ _ _ (by decide),
    objGet_objSet_other _ _ _ _ (by decide), objGet_objSet_self]

theorem jsonValue_get_green (o : Outline) :
    (Outline.JsonValue o).get "green" = .curveDoc o.green := by
  simp only [Outline.JsonValue, JsonVal.get, Keyframe.JsonValue]
  rw [objGet_objSet_other _ _ _ _ (by decide), objGet_objSet_other _ _ _ _ (by decide),
    objGet_objSet_self]

theorem jsonValue_get_blue (o : Outline) :
    (Outline.JsonValue o).get "blue" = .curveDoc o.blue := by
  simp only [Outline.JsonValue, JsonVal.get, Keyframe.JsonValue]
  rw [objGet_objSet_other _ _ _ _ (by decide), objGet_objSet_self]

theorem jsonValue_get_alpha (o : Outline) :
    (Outline.JsonValue o).get "alpha" = .curveDoc o.alpha := by
  simp only [Outline.JsonValue, JsonVal.get, Keyframe.JsonValue]
  rw [objGet_objSet_self]

theorem getFrame_run (bc : ℚ → Mask → Mask) (ec : Mask → Mask) (o : Outline)
    (img : Image) (t : ℤ) (s : ℤ) (hs : o.sigmaValue t = s) (hpos : 0 < s)
    (hw0 : img.width ≠ 0) (hh0 : img.height ≠ 0) (hw1 : img.width ≠ 1)
    (hh1 : img.height ≠ 1) :
    Outline.getFrame bc ec o img t =
      .ok (compositeImage img (o.blueValue t) (o.greenValue t) (o.redValue t)
        (o.alphaValue t)
        (bitwiseOr (thresholdBinary 0 255 (bc (s : ℚ) (alphaMask img)))
          (bc ((4 : ℚ) / 5)
            (ec (thresholdBinary 0 255 (bc (s : ℚ) (alphaMask img))))))) := by
  unfold Outline.getFrame
  rw [hs]
  exact runPipeline_eq_of bc ec img s _ _ _ _ _ _
    (gaussianBlurChecked_pos bc img.width img.height _ (alphaMask img)
      hw0 hh0 hw1 hh1 (by exact_mod_cast hpos))
    (gaussianBlurChecked_pos bc img.width img.height _ _
      hw0 hh0 hw1 hh1 (by norm_num))

theorem cppToInt_three_thirds : cppToInt ((3 : ℚ) / 3) = 1 := by
  rw [show ((3 : ℚ) / 3) = 1 by norm_num, cppToInt_of_nonneg _ (by norm_num)]
  norm_num

theorem cppToInt_two_thirds : cppToInt ((2 : ℚ) / 3) = 0 := by
  rw [cppToInt_of_nonneg _ (by norm_num)]
  norm_num

theorem cppToInt_nine : cppToInt (9 : ℚ) = 9 := by
  rw [cppToInt_of_nonneg _ (by norm_num)]
  norm_num

theorem cppToInt_255 : cppToInt (255 : ℚ) = 255 := by
  rw [cppToInt_of_nonneg _ (by norm_num)]
  norm_num

theorem setJsonValue_jsonValue
    (baseSet : List (String × JsonVal) → JsonVal → List (String × JsonVal))
    (o o2 : Outline) :
    Outline.SetJsonValue baseSet o2 (Outline.JsonValue o) =
      { width := o.width, red := o.red, green := o.green, blue := o.blue,
        alpha := o.alpha, base := baseSet o2.base (Outline.JsonValue o) } := by
  unfold Outline.SetJsonValue
  rw [jsonValue_get_width, jsonValue_get_red, jsonValue_get_green,
    jsonValue_get_blue, jsonValue_get_alpha]
  simp [JsonVal.isNull, Keyframe.SetJsonValue]

/-- C2: the spec states that a resolved width with floor(width / 3) = 0
makes the MaskDilator an identity pass and the pipeline completes normally.
The code instead hands sigma = 0 together with an automatic kernel size of
Size(0, 0) to cv::GaussianBlur, whose kernel-size assertion fails, so
GetFrame raises an OpenCV error on any non-degenerate frame: at resolved
width 2 (sigma = 0) on a 2-by-2 opaque image, GetFrame returns the
kernel-size error for every convolution core, instead of completing. -/
theorem outline_C2_sigma_zero_raises :
    ∀ (blurCore : ℚ → Mask → Mask) (edgeCore : Mask → Mask),
    Outline.getFrame blurCore edgeCore (outlineConst 2 0 0 0 255) imgOpaque 1 =
      .error .badKernelSize := by
  intro bc ec
  have hs : (outlineConst 2 0 0 0 255).sigmaValue 1 = 0 := cppToInt_two_thirds
  unfold Outline.getFrame runPipeline
  rw [hs]
  rw [gaussianBlurChecked_nonpos bc _ _ _ _ (by decide) (by decide) (by decide)
    (by decide) (by norm_num)]

/-- C3: the spec states that a zero-area input image yields a zero-area
output with no error.  The code instead reaches cv::GaussianBlur with an
empty source matrix, whose emptiness assertion fails, so GetFrame raises an
OpenCV error: on a 0-by-0 image with the default width 3, GetFrame returns
the empty-source error for every convolution core. -/
theorem outline_C3_empty_raises :
    ∀ (blurCore : ℚ → Mask → Mask) (edgeCore : Mask → Mask),
    Outline.getFrame blurCore edgeCore (outlineConst 3 0 0 0 255) imgEmpty 1 =
      .error .emptySrc := by
  intro bc ec
  unfold Outline.getFrame runPipeline
  rw [gaussianBlurChecked_empty bc imgEmpty.width imgEmpty.height _
    (alphaMask imgEmpty) (Or.inl rfl)]

/-- C4: after the binarization step of the MaskDilator (cv::threshold with
threshold 0, maxval 255, THRESH_BINARY), every pixel whose blurred value was
greater than 0 equals exactly 255, every other pixel equals exactly 0, and
the thresholded mask takes no value outside the set containing 0 and 255. -/
theorem outline_C4_threshold_binary :
    ∀ (blurred : Mask) (y x : ℕ),
      (0 < blurred y x → thresholdBinary 0 255 blurred y x = 255) ∧
      (blurred y x = 0 → thresholdBinary 0 255 blurred y x = 0) ∧
      (thresholdBinary 0 255 blurred y x = 0 ∨
        thresholdBinary 0 255 blurred y x = 255) := by
  intro m y x
  refine ⟨fun h => by simp [thresholdBinary, h],
    fun h => by simp [thresholdBinary, h], ?_⟩
  by_cases h : 0 < m y x
  · exact Or.inr (by simp [thresholdBinary, h])
  · exact Or.inl (by simp [thresholdBinary, h])

/-- C4 witness: a blurred value of 7 binarizes to 255 and a blurred value
of 0 stays 0. -/
theorem outline_C4_witness :
    (0 < wMask7 0 0 ∧ thresholdBinary 0 255 wMask7 0 0 = 255) ∧
    (wMaskZero 0 0 = 0 ∧ thresholdBinary 0 255 wMaskZero 0 0 = 0) :=
  ⟨⟨by decide, (outline_C4_threshold_binary wMask7 0 0).1 (by decide)⟩,
   ⟨rfl, (outline_C4_threshold_binary wMaskZero 0 0).2.1 rfl⟩⟩

/-- C10: the masked write of the fill canvas (line 95) is all-or-nothing per
pixel: where the combined compositing mask is nonzero the destination pixel
receives the full saturated fill colour with the resolved opacity as alpha,
where it is zero the destination keeps its zero initialization, and any two
masks that are nonzero at a pixel produce the identical fill pixel there,
whatever their magnitudes. -/
theorem outline_C10_masked_fill :
    ∀ (bI gI rI aI : ℤ) (combined : Mask) (y x : ℕ),
      (combined y x ≠ 0 →
        fillLayer bI gI rI aI combined y x =
          ⟨saturateUChar bI, saturateUChar gI, saturateUChar rI, saturateUChar aI⟩) ∧
      (combined y x = 0 → fillLayer bI gI rI aI combined y x = ⟨0, 0, 0, 0⟩) ∧
      (∀ m2 : Mask, combined y x ≠ 0 → m2 y x ≠ 0 →
        fillLayer bI gI rI aI combined y x = fillLayer bI gI rI aI m2 y x) := by
  intro bI gI rI aI cm y x
  refine ⟨fun h => ?_, fun h => ?_, fun m2 h1 h2 => ?_⟩
  · simp [fillLayer, maskedCopy, solidColorMat, h]
  · simp [fillLayer, maskedCopy, zeroCanvas, h]
  · simp [fillLayer, maskedCopy, h1, h2]

/-- C10 witness: a mask value of 1 and a mask value of 255 deposit the same
full fill pixel (37, 99, 200, 128). -/
theorem outline_C10_witness :
    wMaskOne 0 0 ≠ 0 ∧ wMask255 0 0 ≠ 0 ∧
    fillLayer 37 99 200 128 wMaskOne 0 0 = ⟨37, 99, 200, 128⟩ ∧
    fillLayer 37 99 200 128 wMaskOne 0 0 = fillLayer 37 99 200 128 wMask255 0 0 := by
  refine ⟨by decide, by decide, ?_, ?_⟩
  · rw [(outline_C10_masked_fill 37 99 200 128 wMaskOne 0 0).1 (by decide)]
    decide
  · exact (outline_C10_masked_fill 37 99 200 128 wMaskOne 0 0).2.2 wMask255
      (by decide) (by decide)

/-- C6: serializing an instance with JsonValue, loading the produced
document into a fresh (blank-constructed) instance with SetJsonValue, and
evaluating both instances at the same frame index on the same input image
yields identical GetFrame results, pixel for pixel, for every parent-state
updater, every convolution core, every instance, every image and every
frame index. -/
theorem outline_C6_roundtrip :
    ∀ (baseSet : List (String × JsonVal) → JsonVal → List (String × JsonVal))
      (blurCore : ℚ → Mask → Mask) (edgeCore : Mask → Mask) (o : Outline)
      (img : Image) (t : ℤ),
    Outline.getFrame blurCore edgeCore
      (Outline.SetJsonValue baseSet Outline.blank (Outline.JsonValue o)) img t =
      Outline.getFrame blurCore edgeCore o img t := by
  intro baseSet bc ec o img t
  rw [setJsonValue_jsonValue]
  rfl

/-- C7: when the parser rejects the document, SetJson signals the structured
InvalidJSON error with its human-readable message and the instance state
after the call is exactly the state before it, for every parser, every
parent-state updater, every instance and every input string. -/
theorem outline_C7_parse_error :
    ∀ (parse : String → Except String JsonVal)
      (baseSet : List (String × JsonVal) → JsonVal → List (String × JsonVal))
      (o : Outline) (s : String) (e : String),
    parse s = .error e →
    Outline.SetJson parse baseSet o s =
      (o, some (.invalidJSON "JSON is invalid (missing keys or invalid data types)")) := by
  intro parse baseSet o s e h
  unfold Outline.SetJson
  rw [h]

/-- C7 witness: loading an unparsable document into the blank instance
yields the InvalidJSON error and the unchanged blank instance. -/
theorem outline_C7_witness :
    parseFail "not a json document" = .error "parse failure" ∧
    Outline.SetJson parseFail baseKeep Outline.blank "not a json document" =
      (Outline.blank,
        some (.invalidJSON "JSON is invalid (missing keys or invalid data types)")) :=
  ⟨rfl, outline_C7_parse_error parseFail baseKeep Outline.blank
    "not a json document" "parse failure" rfl⟩

/-- C8: loading an object document through SetJsonValue is key-by-key
partial: for each of the five parameter keys, an absent (null) key leaves
the corresponding in-memory curve exactly as it was, and a present curve
document replaces it; no error is possible (SetJsonValue is total). -/
theorem outline_C8_partial_update :
    ∀ (baseSet : List (String × JsonVal) → JsonVal → List (String × JsonVal))
      (o : Outline) (fs : List (String × JsonVal)),
      (objGet fs "width" = .null →
        (Outline.SetJsonValue baseSet o (.obj fs)).width = o.width) ∧
      (∀ k, objGet fs "width" = .curveDoc k →
        (Outline.SetJsonValue baseSet o (.obj fs)).width = k) ∧
      (objGet fs "red" = .null →
        (Outline.SetJsonValue baseSet o (.obj fs)).red = o.red) ∧
      (∀ k, objGet fs "red" = .curveDoc k →
        (Outline.SetJsonValue baseSet o (.obj fs)).red = k) ∧
      (objGet fs "green" = .null →
        (Outline.SetJsonValue baseSet o (.obj fs)).green = o.green) ∧
      (∀ k, objGet fs "green" = .curveDoc k →
        (Outline.SetJsonValue baseSet o (.obj fs)).green = k) ∧
      (objGet fs "blue" = .null →
        (Outline.SetJsonValue baseSet o (.obj fs)).blue = o.blue) ∧
      (∀ k, objGet fs "blue" = .curveDoc k →
        (Outline.SetJsonValue baseSet o (.obj fs)).blue = k) ∧
      (objGet fs "alpha" = .null →
        (Outline.SetJsonValue baseSet o (.obj fs)).alpha = o.alpha) ∧
      (∀ k, objGet fs "alpha" = .curveDoc k →
        (Outline.SetJsonValue baseSet o (.obj fs)).alpha = k) := by
  intro baseSet o fs
  refine ⟨fun h => ?_, fun k h => ?_, fun h => ?_, fun k h => ?_, fun h => ?_,
    fun k h => ?_, fun h => ?_, fun k h => ?_, fun h => ?_, fun k h => ?_⟩ <;>
    simp [Outline.SetJsonValue, JsonVal.get, h, JsonVal.isNull, Keyframe.SetJsonValue]

/-- C8 witness: a document carrying only a width curve replaces the width
curve of the blank instance and leaves its red curve unchanged. -/
theorem outline_C8_witness :
    objGet wDoc8 "width" = .curveDoc wCurve7 ∧
    objGet wDoc8 "red" = .null ∧
    (Outline.SetJsonValue baseKeep Outline.blank (.obj wDoc8)).width = wCurve7 ∧
    (Outline.SetJsonValue baseKeep Outline.blank (.obj wDoc8)).red = Outline.blank.red :=
  ⟨rfl, rfl,
    (outline_C8_partial_update baseKeep Outline.blank wDoc8).2.1 wCurve7 rfl,
    (outline_C8_partial_update baseKeep Outline.blank wDoc8).2.2.1 rfl⟩

/-- C1 (amended): whenever GetFrame completes, every pixel inside the
original unblurred alpha footprint of the input equals the Qt-premultiplied
copy of the corresponding input pixel — the final masked re-composite of the
original image is never skipped, but the closing format conversion of
BGRACvMatToQImage multiplies the colour channels by alpha / 255 once more;
consequently, for an input whose alpha channel is 255 at every pixel (with
well-formed 8-bit channels), the output is pixel-identical to the input. -/
theorem outline_C1_amended :
    ∀ (blurCore : ℚ → Mask → Mask) (edgeCore : Mask → Mask) (o : Outline)
      (img : Image) (t : ℤ) (out : Image) (y x : ℕ),
      Outline.getFrame blurCore edgeCore o img t = .ok out →
      ((img.pix y x).a ≠ 0 → out.pix y x = qtPremultiply (img.pix y x)) ∧
      ((∀ v u : ℕ, (img.pix v u).a = 255 ∧ (img.pix v u).b < 256 ∧
          (img.pix v u).g < 256 ∧ (img.pix v u).r < 256) →
        out.pix y x = img.pix y x ∧ out.width = img.width ∧
          out.height = img.height) := by
  intro bc ec o img t out y x hok
  obtain ⟨cm, rfl⟩ := runPipeline_ok bc ec img _ _ _ _ _ out hok
  constructor
  · intro ha
    simp [compositeImage, maskedCopy, alphaMask, ha]
  · intro hall
    obtain ⟨ha, hb, hg, hr⟩ := hall y x
    refine ⟨?_, rfl, rfl⟩
    have h1 : (compositeImage img (Outline.blueValue o t) (Outline.greenValue o t)
        (Outline.redValue o t) (Outline.alphaValue o t) cm).pix y x =
        qtPremultiply (img.pix y x) := by
      simp [compositeImage, maskedCopy, alphaMask, ha]
    rw [h1]
    exact qtPremultiply_opaque _ ha hb hg hr

/-- C1 witness: a concrete run with the identity convolution core on a fully
opaque 2-by-2 image, width 3 and fill colour (9, 9, 9, 255): the pixel at
(0, 0) lies in the footprint, equals its premultiplied copy and equals the
input pixel exactly. -/
theorem outline_C1_amended_witness :
    (imgOpaque.pix 0 0).a ≠ 0 ∧
    wOutC1.pix 0 0 = qtPremultiply (imgOpaque.pix 0 0) ∧
    wOutC1.pix 0 0 = imgOpaque.pix 0 0 := by
  have hsig : (outlineConst 3 9 9 9 255).sigmaValue 1 = 1 := cppToInt_three_thirds
  have hb : (outlineConst 3 9 9 9 255).blueValue 1 = 9 := cppToInt_nine
  have hg : (outlineConst 3 9 9 9 255).greenValue 1 = 9 := cppToInt_nine
  have hr : (outlineConst 3 9 9 9 255).redValue 1 = 9 := cppToInt_nine
  have ha : (outlineConst 3 9 9 9 255).alphaValue 1 = 255 := cppToInt_255
  have hrun := getFrame_run wBlur wEdge (outlineConst 3 9 9 9 255) imgOpaque 1 1
    hsig one_pos (by decide) (by decide) (by decide) (by decide)
  rw [hb, hg, hr, ha] at hrun
  have hrun2 : Outline.getFrame wBlur wEdge (outlineConst 3 9 9 9 255) imgOpaque 1 =
      .ok wOutC1 := hrun
  have hmain := outline_C1_amended wBlur wEdge (outlineConst 3 9 9 9 255) imgOpaque
    1 wOutC1 0 0 hrun2
  exact ⟨by decide, hmain.1 (by decide),
    (hmain.2 (fun v u => ⟨rfl, by show (10 : ℕ) < 256; decide,
      by show (20 : ℕ) < 256; decide, by show (30 : ℕ) < 256; decide⟩)).1⟩

/-- C1 counterexample: the claim as stated — every footprint pixel of the
output equals the input pixel unchanged — is false: on a 2-by-2 image whose
pixels are (100, 100, 100, 128), width 3 and fill colour (9, 9, 9, 255),
the footprint pixel at (0, 0) comes back as (50, 50, 50, 128) because the
closing conversion premultiplies the colour channels by 128 / 255. -/
theorem outline_C1_counterexample :
    ¬ (∀ (blurCore : ℚ → Mask → Mask) (edgeCore : Mask → Mask) (o : Outline)
        (img : Image) (t : ℤ) (out : Image) (y x : ℕ),
        Outline.getFrame blurCore edgeCore o img t = .ok out →
        (img.pix y x).a ≠ 0 → out.pix y x = img.pix y x) := by
  intro hclaim
  have hsig : (outlineConst 3 9 9 9 255).sigmaValue 1 = 1 := cppToInt_three_thirds
  have hb : (outlineConst 3 9 9 9 255).blueValue 1 = 9 := cppToInt_nine
  have hg : (outlineConst 3 9 9 9 255).greenValue 1 = 9 := cppToInt_nine
  have hr : (outlineConst 3 9 9 9 255).redValue 1 = 9 := cppToInt_nine
  have ha : (outlineConst 3 9 9 9 255).alphaValue 1 = 255 := cppToInt_255
  have hrun := getFrame_run wBlur wEdge (outlineConst 3 9 9 9 255) imgHalf 1 1
    hsig one_pos (by decide) (by decide) (by decide) (by decide)
  rw [hb, hg, hr, ha] at hrun
  have hrun2 : Outline.getFrame wBlur wEdge (outlineConst 3 9 9 9 255) imgHalf 1 =
      .ok wOutCex := hrun
  have heq := hclaim wBlur wEdge (outlineConst 3 9 9 9 255) imgHalf 1 wOutCex 0 0
    hrun2 (by decide)
  exact absurd heq (by decide)

/-- C9 (amended): each of the five resolved parameter scalars is converted
to an integer by C++ truncation toward zero before the pixel pipeline uses
it — the floor for a nonnegative resolved value and the ceiling for a
negative one (so a resolved red of 254.7 is used as 254, not rounded to
255); for the width this applies to the quotient width / 3 of line 53. -/
theorem outline_C9_amended :
    ∀ (o : Outline) (t : ℤ),
      (0 ≤ o.width.GetValue t / 3 → o.sigmaValue t = ⌊o.width.GetValue t / 3⌋) ∧
      (o.width.GetValue t / 3 < 0 → o.sigmaValue t = ⌈o.width.GetValue t / 3⌉) ∧
      (0 ≤ o.red.GetValue t → o.redValue t = ⌊o.red.GetValue t⌋) ∧
      (o.red.GetValue t < 0 → o.redValue t = ⌈o.red.GetValue t⌉) ∧
      (0 ≤ o.green.GetValue t → o.greenValue t = ⌊o.green.GetValue t⌋) ∧
      (o.green.GetValue t < 0 → o.greenValue t = ⌈o.green.GetValue t⌉) ∧
      (0 ≤ o.blue.GetValue t → o.blueValue t = ⌊o.blue.GetValue t⌋) ∧
      (o.blue.GetValue t < 0 → o.blueValue t = ⌈o.blue.GetValue t⌉) ∧
      (0 ≤ o.alpha.GetValue t → o.alphaValue t = ⌊o.alpha.GetValue t⌋) ∧
      (o.alpha.GetValue t < 0 → o.alphaValue t = ⌈o.alpha.GetValue t⌉) := by
  intro o t
  exact ⟨fun h => cppToInt_of_nonneg _ h, fun h => cppToInt_of_neg _ h,
    fun h => cppToInt_of_nonneg _ h, fun h => cppToInt_of_neg _ h,
    fun h => cppToInt_of_nonneg _ h, fun h => cppToInt_of_neg _ h,
    fun h => cppToInt_of_nonneg _ h, fun h => cppToInt_of_neg _ h,
    fun h => cppToInt_of_nonneg _ h, fun h => cppToInt_of_neg _ h⟩

/-- C9 witness: with a constant red curve at 254.7 the resolved red integer
is 254 (floor of a nonnegative value), and with a constant green curve at
-2.5 the resolved green integer is -2 (ceiling of a negative value). -/
theorem outline_C9_amended_witness :
    ((0 : ℚ) ≤ (outlineConst 3 ((2547 : ℚ)/10) (-((5 : ℚ)/2)) 0 255).red.GetValue 1 ∧
      (outlineConst 3 ((2547 : ℚ)/10) (-((5 : ℚ)/2)) 0 255).redValue 1 = 254) ∧
    ((outlineConst 3 ((2547 : ℚ)/10) (-((5 : ℚ)/2)) 0 255).green.GetValue 1 < 0 ∧
      (outlineConst 3 ((2547 : ℚ)/10) (-((5 : ℚ)/2)) 0 255).greenValue 1 = -2) := by
  have h := outline_C9_amended (outlineConst 3 ((2547 : ℚ)/10) (-((5 : ℚ)/2)) 0 255) 1
  have hr : (0 : ℚ) ≤ (2547 : ℚ)/10 := by norm_num
  have hg : -((5 : ℚ)/2) < 0 := by norm_num
  refine ⟨⟨hr, ?_⟩, ⟨hg, ?_⟩⟩
  · rw [h.2.2.1 hr]
    show ⌊(2547 : ℚ)/10⌋ = 254
    norm_num
  · rw [h.2.2.2.2.2.1 hg]
    show ⌈-((5 : ℚ)/2)⌉ = -2
    rw [Int.ceil_neg]
    norm_num

/-- C9 counterexample: the claim that the five resolved scalars are rounded
to the nearest integer before use is false: a constant red curve at 254.7
resolves through line 54 to the integer 254, while rounding to nearest
would give 255. -/
theorem outline_C9_counterexample :
    ¬ (∀ (o : Outline) (t : ℤ),
        o.redValue t = round (o.red.GetValue t) ∧
        o.greenValue t = round (o.green.GetValue t) ∧
        o.blueValue t = round (o.blue.GetValue t) ∧
        o.alphaValue t = round (o.alpha.GetValue t) ∧
        o.sigmaValue t = cppToInt ((round (o.width.GetValue t) : ℚ) / 3)) := by
  intro hclaim
  have h1 := (hclaim (outlineConst 3 ((2547 : ℚ)/10) 0 0 255) 1).1
  have h2 : (outlineConst 3 ((2547 : ℚ)/10) 0 0 255).redValue 1 = 254 := by
    rw [show (outlineConst 3 ((2547 : ℚ)/10) 0 0 255).redValue 1 =
      cppToInt ((2547 : ℚ)/10) from rfl, cppToInt_of_nonneg _ (by norm_num)]
    norm_num
  have h3 : round ((outlineConst 3 ((2547 : ℚ)/10) 0 0 255).red.GetValue 1) = 255 := by
    show round ((2547 : ℚ)/10) = 255
    norm_num [round_eq]
  rw [h2, h3] at h1
  exact absurd h1 (by decide)
